import Mathlib

set_option maxHeartbeats 1000000
set_option linter.unusedVariables false

/-
  Shallow embedding of the event/timer dispatch core of the sdl2-cpp
  repository: the class sdl2::event_map in the current (third, final)
  variant of the event header, src/unnamed/part_000 lines 550-994.

  Modelling conventions:
  - time is measured in milliseconds; steady clock instants are Int
    (chrono durations divided by 1ms are the identity at this granularity);
  - the C++ unsigned int fields are Nat values reduced modulo 2^32 where
    the source arithmetic can wrap (timer ids, key timestamps, repeat
    counters); the event-type value event_type(-1) is the concrete Nat
    2^32 - 1;
  - callbacks are identified by an opaque Nat tag; invoking a callback is
    recorded by emitting its tag into a fired list;
  - SDL_PushEvent is modelled by returning the pushed event (Option:
    none when nothing was pushed); SDL_WaitEventTimeout is modelled by an
    input stream of (now, Option SDLEvent) pairs fed to the loop, where
    none stands for a timeout with no SDL error pending;
  - the timer struct member id_ is absent from the constructor member
    init list in the source, so the field keeps an indeterminate value;
    that value is made explicit as the junk argument of Timer.ctor.
-/

/-- 2^32, the modulus of the 32-bit unsigned arithmetic in the source. -/
def U32 : Nat := 4294967296

/-- The value of event_type(-1) (event_type is unsigned int). -/
def EVENT_TYPE_INVALID : Nat := 4294967295

/-- SDL_QUIT = 0x100. -/
def SDL_QUIT_EVT : Nat := 256

/-- SDL_KEYDOWN = 0x300. -/
def SDL_KEYDOWN_EVT : Nat := 768

/-- SDL_KEYUP = 0x301. -/
def SDL_KEYUP_EVT : Nat := 769

/-- The struct event_map::timer: id, absolute due time (ms), interval
(ms), one-shot flag and the callback (an opaque tag). -/
structure Timer where
  id_ : Nat
  when_ : Int
  interval_ : Int
  one_shot_ : Bool
  handler_ : Nat
deriving DecidableEq, Repr

/-- The C++ constructor of event_map::timer. Its member init list sets
when_, interval_, one_shot_ and handler_ but omits id_, so the id
parameter is dropped and the id_ field keeps the indeterminate value the
storage already held; that value is the explicit junk argument here. -/
def Timer.ctor (junk : Nat) (id : Nat) (when : Int) (interval : Int)
    (one_shot : Bool) (handler : Nat) : Timer :=
  { id_ := junk, when_ := when, interval_ := interval,
    one_shot_ := one_shot, handler_ := handler }

/-- The parts of SDL_Event the embedded code reads: the type tag, the
key fields (repeat flag, timestamp, keycode), and the user fields
(code and data1, the latter carrying a timer record for add-timer
events). -/
structure SDLEvent where
  etype : Nat
  keyRepeat : Nat
  keyTimestamp : Nat
  keySym : Int
  userCode : Nat
  userData1 : Option Timer
deriving DecidableEq, Repr

/-- 32-bit unsigned subtraction a - b modulo 2^32. -/
def sub32 (a b : Nat) : Nat := (a % U32 + (U32 - b % U32)) % U32

/-- The state of event_map::rate_limiter: last recorded key timestamp and
the consecutive repeat counter, both unsigned int in the source. -/
structure rate_limiter where
  last_key_timestamp_ : Nat
  key_repeat_count_ : Nat
deriving DecidableEq, Repr

/-- rate_limiter::rate_limited. On a non-repeat event the counter is
reset to zero, on a repeat event it is incremented (unsigned, wrapping);
then the last timestamp is read and replaced by the event timestamp, and
the call reports suppression when the event is a repeat and the elapsed
unsigned difference is below the threshold chosen by the updated counter:
25 when the counter is positive, 500 otherwise. Returns the Bool result
together with the updated state. -/
def rate_limited (s : rate_limiter) (e : SDLEvent) : Bool × rate_limiter :=
  let cnt := if e.keyRepeat = 0 then 0 else (s.key_repeat_count_ + 1) % U32
  let last := s.last_key_timestamp_
  let s2 : rate_limiter :=
    { last_key_timestamp_ := e.keyTimestamp % U32, key_repeat_count_ := cnt }
  ((!(e.keyRepeat == 0)) &&
     decide (sub32 e.keyTimestamp last < (if 0 < cnt then 25 else 500)), s2)

/-- key_down_adaptor::operator(). When the keycode matches, the rate
limiter runs and the handler is invoked exactly when it did not suppress
the event, and the call reports the event consumed; otherwise nothing
happens. Result: (consumed, handler invoked, updated limiter state). -/
def key_down_adaptor_call (keycode : Int) (s : rate_limiter) (e : SDLEvent) :
    Bool × Bool × rate_limiter :=
  if e.keySym = keycode then
    let r := rate_limited s e
    (true, !r.1, r.2)
  else
    (false, false, s)

/-- The fields of event_map relevant to the timer machinery: the timer
set, the three reserved event-type tags and the id counter (atomic
unsigned int, starting at 1). The handler registry is modelled
separately by handle_event below, since its entries are closures. -/
structure EventMap where
  timers_ : List Timer
  stop_event_type_ : Nat
  add_timer_event_type_ : Nat
  stop_timer_event_type_ : Nat
  next_timer_id_ : Nat
deriving DecidableEq, Repr

/-- The event_map constructor. SDL_RegisterEvents(3) either yields a base
tag (some t) or fails ((Uint32)-1, modelled by none); on success the
three consecutive tags are taken, on failure all three tags keep their
default value event_type(-1). -/
def EventMap.construct (reg : Option Nat) : EventMap :=
  match reg with
  | none =>
    { timers_ := [], stop_event_type_ := EVENT_TYPE_INVALID,
      add_timer_event_type_ := EVENT_TYPE_INVALID,
      stop_timer_event_type_ := EVENT_TYPE_INVALID, next_timer_id_ := 1 }
  | some t =>
    { timers_ := [], stop_event_type_ := t,
      add_timer_event_type_ := t + 1,
      stop_timer_event_type_ := t + 2, next_timer_id_ := 1 }

/-- event_map::add_timer. When the add-timer tag is invalid it returns 0
and pushes nothing; otherwise it computes when = now + interval, takes
the current id (post-increment of the atomic counter, wrapping modulo
2^32), builds a timer record with Timer.ctor (whose id_ field is junk,
as in the source) and pushes an add-timer event carrying it, returning
the id. Result: (returned id, updated event_map, pushed event). -/
def EventMap.add_timer (em : EventMap) (now interval : Int) (one_shot : Bool)
    (handler : Nat) (junk : Nat) : Nat × EventMap × Option SDLEvent :=
  if em.add_timer_event_type_ = EVENT_TYPE_INVALID then
    (0, em, none)
  else
    let when := now + interval
    let id := em.next_timer_id_
    let em2 := { em with next_timer_id_ := (em.next_timer_id_ + 1) % U32 }
    (id, em2,
     some { etype := em.add_timer_event_type_, keyRepeat := 0,
            keyTimestamp := 0, keySym := 0, userCode := 0,
            userData1 := some (Timer.ctor junk id when interval one_shot handler) })

/-- event_map::stop_timer, with the guard condition exactly as in the
source: when the stop-timer tag is NOT the invalid value the call
returns false at once; only when the tag is invalid does it push a
stop-timer event (whose type is then the invalid tag) carrying the id
and return true. Result: (returned Bool, pushed event). -/
def EventMap.stop_timer (em : EventMap) (id : Nat) : Bool × Option SDLEvent :=
  if em.stop_timer_event_type_ ≠ EVENT_TYPE_INVALID then
    (false, none)
  else
    (true,
     some { etype := em.stop_timer_event_type_, keyRepeat := 0,
            keyTimestamp := 0, keySym := 0, userCode := id, userData1 := none })

/-- The stop-timer branch of the event loop: erase plus remove_if keeps,
in order, exactly the timers whose stored id_ differs from the id the
event carries. -/
def removeTimersById (id : Nat) (ts : List Timer) : List Timer :=
  ts.filter (fun t => !(t.id_ == id))

/-- The body of the remove_if lambda in event_map::handle_timeout,
applied to one timer: a due timer (now at or past when_) fires its
handler and is then either removed (one-shot) or rescheduled to
when_ = now + interval_; a timer that is not yet due is kept unchanged
and does not fire. Result: (kept timer if any, whether it fired). -/
def stepTimer (now : Int) (t : Timer) : Option Timer × Bool :=
  if t.when_ ≤ now then
    if t.one_shot_ then (none, true)
    else (some { t with when_ := now + t.interval_ }, true)
  else
    (some t, false)

/-- event_map::handle_timeout over the timer list: applies stepTimer to
every timer in order (remove_if visits each element once, in order),
keeps the surviving timers in order and collects the handler tags of the
timers that fired, in order. -/
def fireDue (now : Int) : List Timer → List Timer × List Nat
  | [] => ([], [])
  | t :: ts =>
    let head := stepTimer now t
    let rest := fireDue now ts
    ((match head.1 with
      | some u => u :: rest.1
      | none => rest.1),
     (if head.2 then [t.handler_] else []) ++ rest.2)

/-- event_map::handle_timeout on the event_map state. -/
def EventMap.handle_timeout (now : Int) (em : EventMap) : EventMap × List Nat :=
  let r := fireDue now em.timers_
  ({ em with timers_ := r.1 }, r.2)

/-- std::min_element over the timer list with the comparison
lhs.when_ < rhs.when_: none on an empty range, otherwise the first
element with the smallest when_ (a later element replaces the current
best only when strictly smaller). -/
def minElementTimer (ts : List Timer) : Option Timer :=
  match ts with
  | [] => none
  | t :: rest =>
    some (rest.foldl (fun best u => if u.when_ < best.when_ then u else best) t)

/-- std::numeric_limits of int, max: the initial wait timeout when no
timer is stored. -/
def INT_MAX : Int := 2147483647

/-- The wait-timeout computation at the top of each iteration of
event_map::run_event_loop: INT_MAX when the timer set is empty,
otherwise the distance in ms to the earliest due time when that is in
the future, and 0 when it is already due. -/
def computeTimeout (ts : List Timer) (now : Int) : Int :=
  match minElementTimer ts with
  | none => INT_MAX
  | some nt => if nt.when_ > now then nt.when_ - now else 0

/-- Earliest due time across a timer list (the next-deadline notion of
the spec), none when the list is empty. -/
def minWhen (ts : List Timer) : Option Int :=
  match ts.map (fun t => t.when_) with
  | [] => none
  | w :: ws => some (ws.foldl min w)

/-- What one iteration of the event-loop body produces: the updated
event_map, the wait timeout that was computed at the top of the
iteration, the handler tags fired by handle_timeout, the events that
were passed on to handle_event, and whether the stop flag was set. -/
structure StepResult where
  em : EventMap
  timeout : Int
  fired : List Nat
  handled : List SDLEvent
  stopFlag : Bool
deriving DecidableEq, Repr

/-- One iteration of the while loop in event_map::run_event_loop, given
the clock reading now and the outcome of SDL_WaitEventTimeout (some
event, or none for a timeout with no SDL error pending). The branches
mirror the source in order: quit or stop-loop event sets the stop flag;
an add-timer event appends the carried timer record to the timer set; a
stop-timer event removes the timers whose stored id matches the carried
id; any other event goes to handle_event (recorded here, since the
handler registry is modelled separately); a timeout runs
handle_timeout. The render callback has no effect on this state and is
not modelled. -/
def loopStep (em : EventMap) (now : Int) (waited : Option SDLEvent) :
    StepResult :=
  let timeout := computeTimeout em.timers_ now
  match waited with
  | some e =>
    if e.etype = SDL_QUIT_EVT ∨ e.etype = em.stop_event_type_ then
      { em := em, timeout := timeout, fired := [], handled := [], stopFlag := true }
    else if e.etype = em.add_timer_event_type_ then
      match e.userData1 with
      | some t =>
        { em := { em with timers_ := em.timers_ ++ [t] }, timeout := timeout,
          fired := [], handled := [], stopFlag := false }
      | none =>
        { em := em, timeout := timeout, fired := [], handled := [],
          stopFlag := false }
    else if e.etype = em.stop_timer_event_type_ then
      { em := { em with timers_ := removeTimersById e.userCode em.timers_ },
        timeout := timeout, fired := [], handled := [], stopFlag := false }
    else
      { em := em, timeout := timeout, fired := [], handled := [e],
        stopFlag := false }
  | none =>
    let r := EventMap.handle_timeout now em
    { em := r.1, timeout := timeout, fired := r.2, handled := [],
      stopFlag := false }

/-- The outcome of run_event_loop on a finite input stream: ret is
some b when the function returned b (some false: refused to start;
some true: stopped by a quit or stop-loop event) and none when the
input stream was exhausted with the loop still running; the remaining
fields collect the per-iteration traces in order. -/
structure LoopResult where
  ret : Option Bool
  em : EventMap
  timeouts : List Int
  fired : List Nat
  handled : List SDLEvent
deriving DecidableEq, Repr

/-- The while loop of run_event_loop over a finite input stream of
(now, waited) pairs, one per iteration. -/
def runLoopGo (em : EventMap) : List (Int × Option SDLEvent) → LoopResult
  | [] => { ret := none, em := em, timeouts := [], fired := [], handled := [] }
  | (now, w) :: rest =>
    let s := loopStep em now w
    if s.stopFlag then
      { ret := some true, em := s.em, timeouts := [s.timeout],
        fired := s.fired, handled := s.handled }
    else
      let r := runLoopGo s.em rest
      { ret := r.ret, em := r.em, timeouts := s.timeout :: r.timeouts,
        fired := s.fired ++ r.fired, handled := s.handled ++ r.handled }

/-- event_map::run_event_loop: returns false at once (zero iterations)
when the stop tag is invalid, otherwise runs the loop. -/
def EventMap.run_event_loop (em : EventMap)
    (inputs : List (Int × Option SDLEvent)) : LoopResult :=
  if em.stop_event_type_ = EVENT_TYPE_INVALID then
    { ret := some false, em := em, timeouts := [], fired := [], handled := [] }
  else
    runLoopGo em inputs

/-- event_map::handle_event: std::find_if over the registered handler
entries with the predicate (e.type equals the entry tag) and-then (the
entry handler consumes e); returns whether some entry consumed the
event. Handler closures are modelled as pure predicates on the event. -/
def handle_event (handlers : List (Nat × (SDLEvent → Bool))) (e : SDLEvent) :
    Bool :=
  match handlers with
  | [] => false
  | c :: rest => if (e.etype == c.1) && c.2 e then true else handle_event rest e

/-- An entry consumes an event when its tag equals the event type tag and
its predicate returns true on the event. -/
def consumes (e : SDLEvent) (c : Nat × (SDLEvent → Bool)) : Prop :=
  e.etype = c.1 ∧ c.2 e = true

/-- Counter iteration for the wraparound analysis: n successive
add_timer calls (with irrelevant payload), keeping only the event_map
state. -/
def addTimerIter (n : Nat) (em : EventMap) : EventMap :=
  match n with
  | 0 => em
  | k + 1 => addTimerIter k (EventMap.add_timer em 0 0 false 0 0).2.1

/-! Concrete inputs used by the evaluation theorems and witnesses. -/

/-- A key-down press of keycode 97 at timestamp 0, repeat flag clear. -/
def pressEvtA : SDLEvent :=
  { etype := SDL_KEYDOWN_EVT, keyRepeat := 0, keyTimestamp := 0,
    keySym := 97, userCode := 0, userData1 := none }

/-- A key-down repeat of keycode 97 at timestamp 100. -/
def repeatEvtA : SDLEvent :=
  { etype := SDL_KEYDOWN_EVT, keyRepeat := 1, keyTimestamp := 100,
    keySym := 97, userCode := 0, userData1 := none }

/-- A stop-timer event carrying id 1, as the loop would receive it when
the reserved base tag is 32768 (stop-timer tag 32770). -/
def stopEvtA : SDLEvent :=
  { etype := 32770, keyRepeat := 0, keyTimestamp := 0,
    keySym := 0, userCode := 1, userData1 := none }

/-- A fresh rate limiter state. -/
def rl0 : rate_limiter := { last_key_timestamp_ := 0, key_repeat_count_ := 0 }

/-- A rate limiter state in steady repeat: last timestamp 90, one repeat
seen. -/
def rlBusy : rate_limiter := { last_key_timestamp_ := 90, key_repeat_count_ := 1 }

/-- A periodic timer due at 5 with interval 7. -/
def tPer : Timer :=
  { id_ := 1, when_ := 5, interval_ := 7, one_shot_ := false, handler_ := 3 }

/-- A one-shot timer due at 0. -/
def tOne : Timer :=
  { id_ := 2, when_ := 0, interval_ := 0, one_shot_ := true, handler_ := 5 }

/-- A registered entry for key-down events that never consumes. -/
def handlerNoB : Nat × (SDLEvent → Bool) := (SDL_KEYDOWN_EVT, fun _ => false)

/-- A registered entry for key-down events consuming keycode 97. -/
def handlerYesA : Nat × (SDLEvent → Bool) :=
  (SDL_KEYDOWN_EVT, fun e => e.keySym == 97)

/-! C1: stop_timer when tag reservation succeeded. -/

/-- C1: the claim says that with successfully reserved tags, stop_timer
injects a stop-timer event carrying the id and returns true, returning
false only when reservation failed. The code does the opposite: with
valid tags (base 32768) it returns false and injects nothing, and with
failed reservation it returns true (injecting an event whose type is the
invalid tag). This evaluation exhibits both directions of the inverted
guard at concrete inputs. -/
theorem stop_timer_guard_inverted_eval :
    EventMap.stop_timer (EventMap.construct (some 32768)) 1 = (false, none)
    ∧ (EventMap.stop_timer (EventMap.construct none) 1).1 = true := by
  constructor
  · decide
  · decide

/-! C2: the rate limiter threshold on the first repeat. -/

/-- C2: the claim says the first repeat after the initial press is
suppressed when the elapsed time is below 500 ms and a subsequent repeat
when below 25 ms. In the code the counter is incremented before the
threshold is chosen, so the first repeat already sees a positive counter
and the 25 ms threshold. Evaluation: from a fresh state, a press at
timestamp 0 leaves the state at counter 0; the first repeat then arrives
at timestamp 100, the elapsed time is 100 (below 500, not below 25), and
the code does NOT suppress it, while the claim says it is suppressed. -/
theorem rate_limited_first_repeat_not_suppressed :
    rate_limited rl0 pressEvtA = (false, rl0)
    ∧ rate_limited rl0 repeatEvtA
        = (false, { last_key_timestamp_ := 100, key_repeat_count_ := 1 })
    ∧ sub32 repeatEvtA.keyTimestamp rl0.last_key_timestamp_ = 100
    ∧ (100 : Nat) < 500 ∧ ¬ (100 : Nat) < 25 := by
  refine ⟨?_, ?_, ?_, ?_, ?_⟩ <;> decide

/-! C3: the id stored in a marshalled timer record. -/

/-- C3: the claim says every timer record marshalled into the timer set
carries the id add_timer returned. The C++ timer constructor omits id_
from its member init list, so the stored id is the indeterminate junk
value, not the id parameter. Evaluation: with junk 7 and returned id 1
the stored id is 7; a stop-timer event carrying the returned id 1 then
removes nothing, while one carrying the junk value 7 removes the timer;
an unmatched id (99) is a no-op. The final conjunct replays this through
add_timer and the event loop: add_timer (base tag 32768) returns id 1,
the loop moves the marshalled record into the timer set and then
processes a stop-timer event carrying id 1, and the timer is still
there. -/
theorem timer_ctor_drops_id_eval :
    (Timer.ctor 7 1 100 50 false 3).id_ = 7
    ∧ ¬ (Timer.ctor 7 1 100 50 false 3).id_ = 1
    ∧ removeTimersById 1 [Timer.ctor 7 1 100 50 false 3]
        = [Timer.ctor 7 1 100 50 false 3]
    ∧ removeTimersById 7 [Timer.ctor 7 1 100 50 false 3] = []
    ∧ removeTimersById 99 [Timer.ctor 7 1 100 50 false 3]
        = [Timer.ctor 7 1 100 50 false 3]
    ∧ (EventMap.add_timer (EventMap.construct (some 32768)) 0 50 false 3 7).1 = 1
    ∧ (EventMap.run_event_loop
         (EventMap.add_timer (EventMap.construct (some 32768)) 0 50 false 3 7).2.1
         [(0, (EventMap.add_timer (EventMap.construct (some 32768)) 0 50 false 3 7).2.2),
          (0, some stopEvtA)]).em.timers_
        = [Timer.ctor 7 1 50 50 false 3] := by
  refine ⟨?_, ?_, ?_, ?_, ?_, ?_, ?_⟩ <;> decide

/-! C4: dispatch order and first consuming match in handle_event. -/

/-- Helper: the Bool predicate of the find_if call holds exactly when the
entry consumes the event. -/
lemma consumes_bool_iff (e : SDLEvent) (c : Nat × (SDLEvent → Bool)) :
    ((e.etype == c.1) && c.2 e) = true ↔ consumes e c := by
  simp [consumes, Bool.and_eq_true, beq_iff_eq]

/-- C4: handle_event returns true exactly when the handler list splits
as a prefix of non-consuming entries followed by a consuming entry (the
first consuming match in registration order), and returns false exactly
when no registered entry consumes the event. -/
theorem handle_event_first_consuming_match
    (hs : List (Nat × (SDLEvent → Bool))) (e : SDLEvent) :
    (handle_event hs e = true ↔
      ∃ l1 c l2, hs = l1 ++ c :: l2 ∧ consumes e c ∧ ∀ c2 ∈ l1, ¬ consumes e c2)
    ∧ (handle_event hs e = false ↔ ∀ c ∈ hs, ¬ consumes e c) := by
  induction hs with
  | nil =>
    refine ⟨?_, ?_⟩
    · constructor
      · intro h
        simp [handle_event] at h
      · rintro ⟨l1, c, l2, h, -, -⟩
        exact absurd h.symm (by simp)
    · simp [handle_event]
  | cons a rest ih =>
    by_cases hca : consumes e a
    · have hb : ((e.etype == a.1) && a.2 e) = true := (consumes_bool_iff e a).mpr hca
      refine ⟨?_, ?_⟩
      · simp only [handle_event, hb, if_true]
        constructor
        · intro _
          exact ⟨[], a, rest, rfl, hca, by simp⟩
        · intro _
          trivial
      · simp only [handle_event, hb, if_true]
        constructor
        · intro h
          cases h
        · intro h
          exact absurd hca (h a (List.mem_cons_self a rest))
    · have hb : ((e.etype == a.1) && a.2 e) = false := by
        rcases Bool.eq_false_or_eq_true ((e.etype == a.1) && a.2 e) with h | h
        · exact absurd ((consumes_bool_iff e a).mp h) hca
        · exact h
      have hstep : handle_event (a :: rest) e = handle_event rest e := by
        simp [handle_event, hb]
      refine ⟨?_, ?_⟩
      · rw [hstep, ih.1]
        constructor
        · rintro ⟨l1, c, l2, hsplit, hc, hpre⟩
          refine ⟨a :: l1, c, l2, by rw [hsplit, List.cons_append], hc, ?_⟩
          intro c2 hc2
          rcases List.mem_cons.mp hc2 with h1 | h1
          · rw [h1]
            exact hca
          · exact hpre c2 h1
        · rintro ⟨l1, c, l2, hsplit, hc, hpre⟩
          cases l1 with
          | nil =>
            have h1 : a = c := by
              simpa using congrArg (fun l => l.head?) hsplit
            rw [← h1] at hc
            exact absurd hc hca
          | cons b l1t =>
            have h1 : a = b ∧ rest = l1t ++ c :: l2 := by
              rw [List.cons_append] at hsplit
              exact ⟨(List.cons.injEq a rest b _).mp hsplit |>.1,
                     (List.cons.injEq a rest b _).mp hsplit |>.2⟩
            exact ⟨l1t, c, l2, h1.2, hc,
                   fun c2 h2 => hpre c2 (List.mem_cons_of_mem b h2)⟩
      · rw [hstep, ih.2]
        constructor
        · intro h c hc
          rcases List.mem_cons.mp hc with h1 | h1
          · rw [h1]
            exact hca
          · exact h c h1
        · intro h c hc
          exact h c (List.mem_cons_of_mem a hc)

/-- Witness for C4: a non-consuming key-down entry registered before a
consuming one; the event is consumed, through the split with the
one-element non-consuming prefix. -/
theorem handle_event_first_consuming_match_w :
    handle_event [handlerNoB, handlerYesA] pressEvtA = true :=
  (handle_event_first_consuming_match [handlerNoB, handlerYesA] pressEvtA).1.mpr
    ⟨[handlerNoB], handlerYesA, [], rfl, ⟨rfl, rfl⟩, by
      intro c2 hc2
      have h1 : c2 = handlerNoB := by simpa using hc2
      rw [h1]
      rintro ⟨-, hfalse⟩
      exact Bool.false_ne_true hfalse⟩

/-! C5: the wait-timeout computation. -/

/-- Helper: the due time of the min_element result is the minimum of the
due times, folded from the head. -/
lemma minElement_foldl_when (t : Timer) (rest : List Timer) :
    (rest.foldl (fun best u => if u.when_ < best.when_ then u else best) t).when_
      = rest.foldl (fun w u => min w u.when_) t.when_ := by
  induction rest generalizing t with
  | nil => rfl
  | cons u rest ih =>
    simp only [List.foldl_cons]
    rw [ih]
    congr 1
    split
    · next h => rw [min_eq_right (le_of_lt h)]
    · next h => rw [min_eq_left (le_of_not_lt h)]

/-- Helper: minWhen of a nonempty list as a fold over the tail. -/
lemma minWhen_cons_eq (t : Timer) (rest : List Timer) :
    minWhen (t :: rest)
      = some (rest.foldl (fun w u => min w u.when_) t.when_) := by
  simp [minWhen, List.foldl_map]

/-- C5: at the top of each loop iteration the computed wait timeout is
INT_MAX when the timer set is empty (no finite deadline: the loop keeps
waiting for events) and otherwise max 0 (earliest due time - now); and
every branch of the loop body records exactly this computation for the
iteration. -/
theorem wait_timeout_formula (ts : List Timer) (now : Int) :
    (ts = [] → computeTimeout ts now = INT_MAX)
    ∧ (∀ w : Int, minWhen ts = some w →
        computeTimeout ts now = max 0 (w - now))
    ∧ (∀ (em : EventMap) (waited : Option SDLEvent),
        (loopStep em now waited).timeout = computeTimeout em.timers_ now) := by
  refine ⟨?_, ?_, ?_⟩
  · intro h
    subst h
    rfl
  · intro w hw
    cases ts with
    | nil => simp [minWhen] at hw
    | cons t rest =>
      have hbw : (rest.foldl
            (fun best u => if u.when_ < best.when_ then u else best) t).when_ = w := by
        rw [minElement_foldl_when]
        rw [minWhen_cons_eq] at hw
        exact Option.some.inj hw
      show (if (rest.foldl
              (fun best u => if u.when_ < best.when_ then u else best) t).when_ > now
            then (rest.foldl
              (fun best u => if u.when_ < best.when_ then u else best) t).when_ - now
            else 0)
          = max 0 (w - now)
      rw [hbw]
      split
      · next h => rw [max_eq_right (by omega : (0:Int) ≤ w - now)]
      · next h => rw [max_eq_left (by omega : w - now ≤ (0:Int))]
  · intro em waited
    cases waited with
    | none => rfl
    | some e =>
      simp only [loopStep]
      repeat' split
      all_goals rfl

/-- Witness for C5: with no timer the timeout is INT_MAX; with two timers
due at 5 and 9 and now 3, the timeout is max 0 (5 - 3) = 2. -/
theorem wait_timeout_formula_w :
    computeTimeout [] 3 = INT_MAX
    ∧ computeTimeout [tPer, { tPer with id_ := 9, when_ := 9 }] 3
        = max 0 (5 - 3) :=
  ⟨(wait_timeout_formula [] 3).1 rfl,
   (wait_timeout_formula [tPer, { tPer with id_ := 9, when_ := 9 }] 3).2.1 5
     (by decide)⟩

/-! C6 and C7: handle_timeout firing behaviour. -/

/-- Helper: the surviving timers of fireDue are the per-timer results of
the remove_if body, in order. -/
lemma fireDue_fst (now : Int) (ts : List Timer) :
    (fireDue now ts).1 = ts.filterMap (fun t => (stepTimer now t).1) := by
  induction ts with
  | nil => rfl
  | cons t ts ih =>
    simp only [fireDue, List.filterMap_cons]
    cases h : (stepTimer now t).1 with
    | none => simp [h, ih]
    | some u => simp [h, ih]

/-- Helper: the fired-handler trace of fireDue is the handler tag of each
due timer, in list order. -/
lemma fireDue_snd (now : Int) (ts : List Timer) :
    (fireDue now ts).2
      = (ts.filter (fun t => decide (t.when_ ≤ now))).map
          (fun t => t.handler_) := by
  induction ts with
  | nil => rfl
  | cons t ts ih =>
    by_cases h : t.when_ ≤ now
    · have h2 : (stepTimer now t).2 = true := by
        simp only [stepTimer, if_pos h]
        cases t.one_shot_ <;> rfl
      simp [fireDue, List.filter_cons, h, h2, ih]
    · have h2 : (stepTimer now t).2 = false := by
        simp only [stepTimer, if_neg h]
      simp [fireDue, List.filter_cons, h, h2, ih]

/-- Helper: a timer kept by the remove_if body keeps its handler tag,
one-shot flag and id. -/
lemma stepTimer_some (now : Int) (t u : Timer)
    (h : (stepTimer now t).1 = some u) :
    u.handler_ = t.handler_ ∧ u.one_shot_ = t.one_shot_ ∧ u.id_ = t.id_ := by
  unfold stepTimer at h
  by_cases h1 : t.when_ ≤ now
  · rw [if_pos h1] at h
    by_cases h2 : t.one_shot_ = true
    · rw [if_pos h2] at h
      cases h
    · rw [if_neg h2] at h
      have h3 := Option.some.inj h
      rw [← h3]
      exact ⟨rfl, rfl, rfl⟩
  · rw [if_neg h1] at h
    have h3 := Option.some.inj h
    rw [← h3]
    exact ⟨rfl, rfl, rfl⟩

/-- C6: the per-timer behaviour of handle_timeout, and its lifting to the
whole set: a due periodic timer fires and is rescheduled to
when_ = now + interval_ (computed from the firing time, which differs
from old due + interval whenever the tick is late); a timer that is not
due is kept unchanged and does not fire; the fired trace is exactly the
due timers' handlers; the surviving set is the ordered image of the
per-timer step. -/
theorem fire_due_periodic_reschedule (now : Int) (ts : List Timer) :
    ((fireDue now ts).1 = ts.filterMap (fun t => (stepTimer now t).1)
      ∧ (fireDue now ts).2
          = (ts.filter (fun t => decide (t.when_ ≤ now))).map
              (fun t => t.handler_))
    ∧ ∀ t : Timer,
        (t.when_ ≤ now → t.one_shot_ = false →
          stepTimer now t = (some { t with when_ := now + t.interval_ }, true))
        ∧ (now < t.when_ → stepTimer now t = (some t, false))
        ∧ (t.when_ < now → now + t.interval_ ≠ t.when_ + t.interval_) := by
  refine ⟨⟨fireDue_fst now ts, fireDue_snd now ts⟩, ?_⟩
  intro t
  refine ⟨?_, ?_, ?_⟩
  · intro hd ho
    simp [stepTimer, hd, ho]
  · intro hlt
    simp [stepTimer, not_le.mpr hlt]
  · intro hlt heq
    omega

/-- Witness for C6: the periodic timer due at 5 with interval 7, fired at
now = 10, is rescheduled to 10 + 7. -/
theorem fire_due_periodic_reschedule_w :
    stepTimer 10 tPer = (some { tPer with when_ := 10 + tPer.interval_ }, true) :=
  ((fire_due_periodic_reschedule 10 [tPer]).2 tPer).1 (by decide) rfl

/-- Helper: the fired-handler count of one fireDue call, as a filter
length. -/
lemma count_map_handlerTag (h : Nat) (l : List Timer) :
    (l.map (fun t => t.handler_)).count h
      = (l.filter (fun t => t.handler_ == h)).length := by
  induction l with
  | nil => rfl
  | cons a l ih =>
    by_cases hh : a.handler_ = h
    · simp [List.count_cons, List.filter_cons, hh, ih]
    · simp [List.count_cons, List.filter_cons, hh, ih]

/-- C7: a due one-shot timer fires and is removed in the same
handle_timeout call: the per-timer step yields (none, fired); the timer
is absent from the surviving set (hence from every later next-deadline
computation over it); its handler tag is in the fired trace; and when it
is the only timer with its handler tag, it fires exactly once in this
call and its handler can never fire in a later handle_timeout over the
surviving set. -/
theorem fire_due_one_shot (now : Int) (ts : List Timer) (t : Timer)
    (hmem : t ∈ ts) (hdue : t.when_ ≤ now) (hone : t.one_shot_ = true) :
    stepTimer now t = (none, true)
    ∧ t ∉ (fireDue now ts).1
    ∧ t.handler_ ∈ (fireDue now ts).2
    ∧ (ts.filter (fun u => u.handler_ == t.handler_) = [t] →
        ((fireDue now ts).2.count t.handler_ = 1
         ∧ ∀ now2 : Int, t.handler_ ∉ (fireDue now2 (fireDue now ts).1).2)) := by
  have hstep : stepTimer now t = (none, true) := by
    simp [stepTimer, hdue, hone]
  refine ⟨hstep, ?_, ?_, ?_⟩
  · rw [fireDue_fst]
    intro hmem2
    obtain ⟨u, hu, hsome⟩ := List.mem_filterMap.mp hmem2
    have hp := stepTimer_some now u t hsome
    by_cases h1 : u.when_ ≤ now
    · unfold stepTimer at hsome
      rw [if_pos h1] at hsome
      by_cases h2 : u.one_shot_ = true
      · rw [if_pos h2] at hsome
        cases hsome
      · exact h2 (hp.2.1.symm.trans hone)
    · have hut : u = t := by
        unfold stepTimer at hsome
        rw [if_neg h1] at hsome
        exact Option.some.inj hsome
      rw [hut] at h1
      exact h1 hdue
  · rw [fireDue_snd]
    exact List.mem_map.mpr
      ⟨t, List.mem_filter.mpr ⟨hmem, decide_eq_true hdue⟩, rfl⟩
  · intro hflt
    constructor
    · rw [fireDue_snd, count_map_handlerTag]
      have hcomm :
          (ts.filter (fun u => decide (u.when_ ≤ now))).filter
              (fun u => u.handler_ == t.handler_)
            = (ts.filter (fun u => u.handler_ == t.handler_)).filter
                (fun u => decide (u.when_ ≤ now)) := by
        rw [List.filter_filter, List.filter_filter]
        apply List.filter_congr
        intro u hu
        exact Bool.and_comm _ _
      rw [hcomm, hflt]
      simp [List.filter_cons, decide_eq_true hdue]
    · intro now2 hmem2
      rw [fireDue_snd] at hmem2
      obtain ⟨u, hu, hequ⟩ := List.mem_map.mp hmem2
      have hu2 : u ∈ (fireDue now ts).1 := (List.mem_filter.mp hu).1
      rw [fireDue_fst] at hu2
      obtain ⟨v, hv, hsome⟩ := List.mem_filterMap.mp hu2
      have hpres := stepTimer_some now v u hsome
      have hveq : v.handler_ = t.handler_ := by
        rw [← hpres.1, hequ]
      have hvmem : v ∈ ts.filter (fun u => u.handler_ == t.handler_) :=
        List.mem_filter.mpr ⟨hv, by simp [hveq]⟩
      rw [hflt] at hvmem
      have hvt : v = t := by simpa using hvmem
      rw [hvt, hstep] at hsome
      cases hsome

/-- Witness for C7: the one-shot timer due at 0, fired at now = 10, steps
to (none, fired) and is gone from the surviving set. -/
theorem fire_due_one_shot_w :
    stepTimer 10 tOne = (none, true) ∧ tOne ∉ (fireDue 10 [tOne]).1 :=
  ⟨(fire_due_one_shot 10 [tOne] tOne (by decide) (by decide) rfl).1,
   (fire_due_one_shot 10 [tOne] tOne (by decide) (by decide) rfl).2.1⟩

/-! C8: the key-down adaptor on suppressed repeats and fresh presses. -/

/-- C8: for an event whose keycode matches the registered one, if the
rate limiter suppresses it the adaptor does not invoke the action yet
reports the event consumed (so dispatch stops there), and if the repeat
flag is clear the limiter never suppresses and the action is invoked
(and the event reported consumed). -/
theorem key_down_suppressed_still_consumed (kc : Int) (s : rate_limiter)
    (e : SDLEvent) (hsym : e.keySym = kc) :
    ((rate_limited s e).1 = true →
      key_down_adaptor_call kc s e = (true, false, (rate_limited s e).2))
    ∧ (e.keyRepeat = 0 →
      key_down_adaptor_call kc s e = (true, true, (rate_limited s e).2)) := by
  constructor
  · intro hsup
    simp [key_down_adaptor_call, hsym, hsup]
  · intro hrep
    have hsup : (rate_limited s e).1 = false := by
      simp [rate_limited, hrep]
    simp [key_down_adaptor_call, hsym, hsup]

/-- Witness for C8: with the limiter at last timestamp 90 and one repeat
seen, the repeat at 100 (elapsed 10 < 25) is suppressed but consumed and
the action is not invoked; a fresh press is consumed with the action
invoked. -/
theorem key_down_suppressed_still_consumed_w :
    key_down_adaptor_call 97 rlBusy repeatEvtA
      = (true, false, (rate_limited rlBusy repeatEvtA).2)
    ∧ key_down_adaptor_call 97 rl0 pressEvtA
      = (true, true, (rate_limited rl0 pressEvtA).2) :=
  ⟨(key_down_suppressed_still_consumed 97 rlBusy repeatEvtA rfl).1 (by decide),
   (key_down_suppressed_still_consumed 97 rl0 pressEvtA rfl).2 rfl⟩

/-! C9: behaviour when event-tag reservation failed. -/

/-- C9: when SDL_RegisterEvents failed at construction, run_event_loop
returns false with zero iterations (no timeout computed, nothing fired,
nothing handled, state untouched) and add_timer returns the sentinel 0,
pushes no event and leaves the state untouched; both are total
functions, so neither aborts. -/
theorem init_failure_sentinel (inputs : List (Int × Option SDLEvent))
    (now interval : Int) (one_shot : Bool) (handler junk : Nat) :
    EventMap.run_event_loop (EventMap.construct none) inputs
      = { ret := some false, em := EventMap.construct none, timeouts := [],
          fired := [], handled := [] }
    ∧ EventMap.add_timer (EventMap.construct none) now interval one_shot
        handler junk
      = (0, EventMap.construct none, none) := by
  constructor
  · rfl
  · rfl

/-- Witness for C9 at concrete arguments. -/
theorem init_failure_sentinel_w :
    EventMap.run_event_loop (EventMap.construct none) [(0, none)]
      = { ret := some false, em := EventMap.construct none, timeouts := [],
          fired := [], handled := [] }
    ∧ EventMap.add_timer (EventMap.construct none) 0 5 true 3 7
      = (0, EventMap.construct none, none) :=
  init_failure_sentinel [(0, none)] 0 5 true 3 7

/-! C10: the timer id counter and its wraparound. -/

/-- Helper: iterating successful add_timer calls keeps the reserved tags
and advances the id counter by one per call, modulo 2^32. -/
lemma addTimerIter_state : ∀ (n : Nat) (em : EventMap),
    em.add_timer_event_type_ ≠ EVENT_TYPE_INVALID →
    em.next_timer_id_ < U32 →
    (addTimerIter n em).add_timer_event_type_ = em.add_timer_event_type_
    ∧ (addTimerIter n em).next_timer_id_ = (em.next_timer_id_ + n) % U32
  | 0, em, htag, hc =>
    ⟨rfl, by
      show em.next_timer_id_ = (em.next_timer_id_ + 0) % U32
      rw [Nat.add_zero, Nat.mod_eq_of_lt hc]⟩
  | k + 1, em, htag, hc => by
    have hstep : (EventMap.add_timer em 0 0 false 0 0).2.1
        = { em with next_timer_id_ := (em.next_timer_id_ + 1) % U32 } := by
      unfold EventMap.add_timer
      rw [if_neg htag]
    have hrec := addTimerIter_state k
      { em with next_timer_id_ := (em.next_timer_id_ + 1) % U32 }
      htag (Nat.mod_lt _ (by decide))
    constructor
    · show (addTimerIter k (EventMap.add_timer em 0 0 false 0 0).2.1).add_timer_event_type_ = _
      rw [hstep]
      exact hrec.1
    · show (addTimerIter k (EventMap.add_timer em 0 0 false 0 0).2.1).next_timer_id_ = _
      rw [hstep, hrec.2, Nat.mod_add_mod]
      congr 1
      omega

/-- C10: the id counter of a freshly constructed event_map is 1; every
successful add_timer call returns the current counter, pushes an event
and advances the counter by one modulo 2^32; after 2^32 - 1 successful
calls the counter has wrapped through to 0, so the next successful call
returns 0 while still pushing its add-timer event - the same value 0
that a failed call (reservation failure) returns with no push, so the
caller cannot tell the two apart. -/
theorem timer_id_wraps_to_sentinel :
    (EventMap.construct (some 32768)).next_timer_id_ = 1
    ∧ (∀ (em : EventMap) (now interval : Int) (one_shot : Bool)
          (handler junk : Nat),
        em.add_timer_event_type_ ≠ EVENT_TYPE_INVALID →
          (EventMap.add_timer em now interval one_shot handler junk).1
              = em.next_timer_id_
          ∧ (EventMap.add_timer em now interval one_shot handler junk).2.1.next_timer_id_
              = (em.next_timer_id_ + 1) % U32
          ∧ (EventMap.add_timer em now interval one_shot handler junk).2.2 ≠ none)
    ∧ (addTimerIter (U32 - 1) (EventMap.construct (some 32768))).next_timer_id_ = 0
    ∧ (EventMap.add_timer
         (addTimerIter (U32 - 1) (EventMap.construct (some 32768)))
         0 0 false 0 0).1 = 0
    ∧ (EventMap.add_timer
         (addTimerIter (U32 - 1) (EventMap.construct (some 32768)))
         0 0 false 0 0).2.2 ≠ none
    ∧ (EventMap.add_timer (EventMap.construct none) 0 0 false 0 0).1 = 0
    ∧ (EventMap.add_timer (EventMap.construct none) 0 0 false 0 0).2.2 = none := by
  have hbase := addTimerIter_state (U32 - 1) (EventMap.construct (some 32768))
    (by decide) (by decide)
  have hcount :
      (addTimerIter (U32 - 1) (EventMap.construct (some 32768))).next_timer_id_
        = 0 := by
    rw [hbase.2]
    decide
  have htagf :
      (addTimerIter (U32 - 1)
          (EventMap.construct (some 32768))).add_timer_event_type_
        ≠ EVENT_TYPE_INVALID := by
    rw [hbase.1]
    decide
  have hgen : ∀ (em : EventMap) (now interval : Int) (one_shot : Bool)
      (handler junk : Nat),
      em.add_timer_event_type_ ≠ EVENT_TYPE_INVALID →
        (EventMap.add_timer em now interval one_shot handler junk).1
            = em.next_timer_id_
        ∧ (EventMap.add_timer em now interval one_shot handler junk).2.1.next_timer_id_
            = (em.next_timer_id_ + 1) % U32
        ∧ (EventMap.add_timer em now interval one_shot handler junk).2.2 ≠ none := by
    intro em now interval one_shot handler junk htag
    unfold EventMap.add_timer
    rw [if_neg htag]
    exact ⟨rfl, rfl, by simp⟩
  refine ⟨rfl, hgen, hcount, ?_, ?_, rfl, rfl⟩
  · exact (hgen _ 0 0 false 0 0 htagf).1.trans hcount
  · exact (hgen _ 0 0 false 0 0 htagf).2.2

/-- Witness for C10: one successful call on the fresh state advances the
counter from 1 to (1 + 1) mod 2^32. -/
theorem timer_id_wraps_to_sentinel_w :
    (EventMap.add_timer (EventMap.construct (some 32768)) 0 0 false 0 0).2.1.next_timer_id_
      = ((EventMap.construct (some 32768)).next_timer_id_ + 1) % U32 :=
  (timer_id_wraps_to_sentinel.2.1 (EventMap.construct (some 32768))
    0 0 false 0 0 (by decide)).2.1
